import Mathlib

/-!
Shallow embedding of the metrics aggregation and resource-usage engine of
`spark-ui/src/reducers/MetricsReducer.ts`, together with theorems checking
the natural-language specification against it.

Modelling conventions:
* JavaScript numbers that hold non-negative integer counters (run times,
  byte counts, task counts) are modelled as `Nat`.
* JavaScript numbers that take part in divisions (epoch milliseconds,
  core counts, memory sizes, rates) are modelled as exact rationals `ℚ`.
* Where a claim is specifically about JavaScript division-by-zero
  behaviour (`Infinity` / `NaN` propagation through `Math.min`), an
  extended-number type `JsNum` models the relevant IEEE-754 special
  values exactly.
* TypeScript `undefined` is modelled as `Option.none`; object spreads
  `{...x, f}` as structure updates.
-/

namespace MetricsReducer

/-- Per-stage metric counters (interface `SparkMetricsStore`): all fields
are non-negative integer counters. -/
structure SparkMetricsStore where
  executorRunTime : Nat
  diskBytesSpilled : Nat
  inputBytes : Nat
  outputBytes : Nat
  shuffleReadBytes : Nat
  shuffleWriteBytes : Nat
  totalTasks : Nat
deriving DecidableEq, Repr

/-- The zero-valued metrics record (all fields 0). -/
def zeroMetrics : SparkMetricsStore :=
  { executorRunTime := 0, diskBytesSpilled := 0, inputBytes := 0,
    outputBytes := 0, shuffleReadBytes := 0, shuffleWriteBytes := 0,
    totalTasks := 0 }

/-- Field-wise summation of a list of metric stores
(`sumMetricStores` in `MetricsReducer.ts`): each field is
`metrics.map(m => m.field).reduce((a, b) => a + b, 0)`. -/
def sumMetricStores (metrics : List SparkMetricsStore) : SparkMetricsStore :=
  { executorRunTime := (metrics.map (·.executorRunTime)).foldl (· + ·) 0,
    diskBytesSpilled := (metrics.map (·.diskBytesSpilled)).foldl (· + ·) 0,
    inputBytes := (metrics.map (·.inputBytes)).foldl (· + ·) 0,
    outputBytes := (metrics.map (·.outputBytes)).foldl (· + ·) 0,
    shuffleReadBytes := (metrics.map (·.shuffleReadBytes)).foldl (· + ·) 0,
    shuffleWriteBytes := (metrics.map (·.shuffleWriteBytes)).foldl (· + ·) 0,
    totalTasks := (metrics.map (·.totalTasks)).foldl (· + ·) 0 }

/-- Raw stage record (interface `SparkStage`): the optional
`taskMetricsDistributions.executorRunTime` five-number summary
(min, p25, median, p75, max) is flattened to an optional list of
rationals. -/
structure SparkStage where
  stageId : Nat
  name : String
  status : String
  numTasks : Nat
  failureReason : Option String
  taskMetricsDistributions : Option (List ℚ)
  executorRunTime : Nat
  diskBytesSpilled : Nat
  inputBytes : Nat
  outputBytes : Nat
  shuffleReadBytes : Nat
  shuffleWriteBytes : Nat
deriving DecidableEq, Repr

/-- Result of `calculatePartitionSkew`: the source's `true` branch carries
`medianTaskDuration`/`maxTaskDuration`, the `false` branch omits them
(they are `undefined` on the returned object). -/
structure PartitionSkewResult where
  hasPartitionSkew : Bool
  medianTaskDuration : Option ℚ
  maxTaskDuration : Option ℚ
deriving DecidableEq, Repr

/-- Source constant `MAX_TASK_DURATION_THRESHOLD_MS = 5000`. -/
def maxTaskDurationThresholdMs : ℚ := 5000

/-- Source constant for the skew factor threshold, value `10`. -/
def partitionSkewFactor : ℚ := 10

/-- Embedding of `calculatePartitionSkew`: `undefined` distribution gives
`undefined`; otherwise median = `executorRunTime[2]`,
max = `executorRunTime[4]`, skew iff max > 5000 and median ≠ 0 and
max / median > 10. -/
def calculatePartitionSkew (stage : SparkStage) : Option PartitionSkewResult :=
  match stage.taskMetricsDistributions with
  | none => none
  | some dist =>
    let medianTaskDuration := dist.getD 2 0
    let maxTaskDuration := dist.getD 4 0
    if maxTaskDuration > maxTaskDurationThresholdMs ∧ medianTaskDuration ≠ 0 ∧
        maxTaskDuration / medianTaskDuration > partitionSkewFactor then
      some { hasPartitionSkew := true, medianTaskDuration := some medianTaskDuration,
             maxTaskDuration := some maxTaskDuration }
    else
      some { hasPartitionSkew := false, medianTaskDuration := none,
             maxTaskDuration := none }

/-- Aggregated per-stage record produced by `calculateStagesStore`
(element of `SparkStagesStore`). -/
structure StageStoreEntry where
  stageId : Nat
  name : String
  status : String
  numTasks : Nat
  failureReason : Option String
  stagesRdd : Option String
  hasPartitionSkew : Option Bool
  mediumTaskDuration : Option ℚ
  maxTaskDuration : Option ℚ
  metrics : SparkMetricsStore
deriving DecidableEq, Repr

/-- Embedding of `calculateStagesStore`: drop `SKIPPED` stages, then build
the per-stage record, attaching the skew diagnostics; the `stagesRdd`
record is modelled as a lookup function from stage id. The
`existingStore` parameter is unused, as in the source. -/
def calculateStagesStore (existingStore : Option (List StageStoreEntry))
    (stagesRdd : Nat → Option String) (stages : List SparkStage) :
    List StageStoreEntry :=
  (stages.filter (fun stage => stage.status ≠ "SKIPPED")).map (fun stage =>
    let partitionSkew := calculatePartitionSkew stage
    { stageId := stage.stageId,
      name := stage.name,
      status := stage.status,
      numTasks := stage.numTasks,
      failureReason := stage.failureReason,
      stagesRdd := stagesRdd stage.stageId,
      hasPartitionSkew := partitionSkew.map (·.hasPartitionSkew),
      mediumTaskDuration := partitionSkew.bind (·.medianTaskDuration),
      maxTaskDuration := partitionSkew.bind (·.maxTaskDuration),
      metrics :=
        { executorRunTime := stage.executorRunTime,
          diskBytesSpilled := stage.diskBytesSpilled,
          inputBytes := stage.inputBytes,
          outputBytes := stage.outputBytes,
          shuffleReadBytes := stage.shuffleReadBytes,
          shuffleWriteBytes := stage.shuffleWriteBytes,
          totalTasks := stage.numTasks } })

/-- Embedding of `calculateJobsMetrics`: keep the stages whose id is in
the job's stage-id list, take their metrics, and sum them. -/
def calculateJobsMetrics (stagesIds : List Nat)
    (stageMetrics : List StageStoreEntry) : SparkMetricsStore :=
  sumMetricStores
    ((stageMetrics.filter (fun stage => stagesIds.contains stage.stageId)).map
      (·.metrics))

/-- Job record (element of `SparkJobsStore`). -/
structure SparkJob where
  jobId : Nat
  name : String
  description : String
  status : String
  stageIds : List Nat
  metrics : SparkMetricsStore
deriving DecidableEq, Repr

/-- Embedding of `calculateJobsStore`: one job record per raw job, with
its metrics computed by `calculateJobsMetrics`. The `existingStore`
parameter is unused, as in the source. -/
def calculateJobsStore (existingStore : Option (List SparkJob))
    (stageMetrics : List StageStoreEntry)
    (jobs : List SparkJob) : List SparkJob :=
  jobs.map (fun job =>
    { jobId := job.jobId, name := job.name, description := job.description,
      status := job.status, stageIds := job.stageIds,
      metrics := calculateJobsMetrics job.stageIds stageMetrics })

/-- Extended JavaScript number for the computations where IEEE-754
division-by-zero behaviour is observable: a finite value (kept exact as a
rational), the two infinities, and NaN. -/
inductive JsNum where
  | nan : JsNum
  | posInf : JsNum
  | negInf : JsNum
  | num : ℚ → JsNum
deriving DecidableEq, Repr

/-- JavaScript division on `JsNum`: a finite value divided by 0 gives
NaN when the numerator is 0, and a signed infinity otherwise. The only
divisions performed by the reducer are between finite values, so the
remaining cases (never reached here) are collapsed to NaN. -/
def jsDiv (x y : JsNum) : JsNum :=
  match x, y with
  | .num a, .num b =>
    if b = 0 then (if a = 0 then .nan else if 0 < a then .posInf else .negInf)
    else .num (a / b)
  | _, _ => .nan

/-- JavaScript multiplication on `JsNum` (NaN-propagating; infinity times
0 is NaN, infinity times a non-zero finite value keeps the product
sign). -/
def jsMul (x y : JsNum) : JsNum :=
  match x, y with
  | .nan, _ => .nan
  | _, .nan => .nan
  | .num a, .num b => .num (a * b)
  | .posInf, .num b => if b = 0 then .nan else if 0 < b then .posInf else .negInf
  | .negInf, .num b => if b = 0 then .nan else if 0 < b then .negInf else .posInf
  | .num a, .posInf => if a = 0 then .nan else if 0 < a then .posInf else .negInf
  | .num a, .negInf => if a = 0 then .nan else if 0 < a then .negInf else .posInf
  | .posInf, .posInf => .posInf
  | .posInf, .negInf => .negInf
  | .negInf, .posInf => .negInf
  | .negInf, .negInf => .posInf

/-- JavaScript `Math.min` on `JsNum`: NaN if any argument is NaN,
otherwise the smaller value with infinities ordered as usual. -/
def jsMin (x y : JsNum) : JsNum :=
  match x, y with
  | .nan, _ => .nan
  | _, .nan => .nan
  | .negInf, _ => .negInf
  | _, .negInf => .negInf
  | .posInf, b => b
  | a, .posInf => a
  | .num a, .num b => .num (min a b)

/-- Embedding of the `durationPercentage` computation of the reducer:
0 when `statusStore.duration` is `undefined`, otherwise
`Math.min(100, (sql.duration / statusStore.duration) * 100)` with
JavaScript number semantics. -/
def durationPercentageOf (runDuration : Option ℚ) (duration : ℚ) : JsNum :=
  match runDuration with
  | none => .num 0
  | some rd => jsMin (.num 100) (jsMul (jsDiv (.num duration) (.num rd)) (.num 100))

/-- Embedding of the `dcuPercentage` computation of the reducer:
0 when `statusStore.executors?.totalDCU` is `undefined`, otherwise
`Math.min(100, (totalDCU / statusStore.executors.totalDCU) * 100)` with
JavaScript number semantics. -/
def dcuPercentageOf (runTotalDCU : Option ℚ) (dcu : ℚ) : JsNum :=
  match runTotalDCU with
  | none => .num 0
  | some rt => jsMin (.num 100) (jsMul (jsDiv (.num dcu) (.num rt)) (.num 100))

/-- Embedding of the `wastedCoresRate` computation of the reducer:
`Math.min(100, (1 - totalTasksTime / coreUsageMs) * 100)` when the
executors-only `coreUsageMs` is non-zero, else 0. The guarded division
never divides by zero, so exact rationals suffice here. -/
def wastedCoresRate (totalTasksTime coreUsageMs : ℚ) : ℚ :=
  if coreUsageMs ≠ 0 then min 100 ((1 - totalTasksTime / coreUsageMs) * 100)
  else 0

/-- Per-query resource usage totals (interface `ResourceUsage`). -/
structure ResourceUsage where
  coreUsageMs : ℚ
  coreHour : ℚ
  memoryHour : ℚ
  totalDCU : ℚ
deriving DecidableEq, Repr

/-- Modelled from the spec: `msToHours` lives in `utils/FormatUtils`,
which is not among the provided sources; the spec fixes it as division
by 3,600,000 (milliseconds-to-hours conversion). -/
def msToHours (ms : ℚ) : ℚ := ms / 3600000

/-- Modelled from the spec: the source intersects two half-open
millisecond windows through the external `moment-range` library; the
spec defines the overlap as the length of `[max(starts), min(ends))`,
empty (length 0, contributing nothing) when the windows do not
overlap. -/
def intersectLength (start1 end1 start2 end2 : ℚ) : ℚ :=
  max 0 (min end1 end2 - max start1 start2)

/-- Executor record (element of `SparkExecutorsStore`). -/
structure SparkExecutor where
  id : String
  isDriver : Bool
  addTimeEpoc : ℚ
  endTimeEpoc : ℚ
  totalCores : ℚ
deriving DecidableEq, Repr

/-- Configuration record (the fields of `ConfigStore` that the reducer
reads). -/
structure ConfigStore where
  driverMemoryBytes : ℚ
  executorContainerMemoryBytes : ℚ
deriving DecidableEq, Repr

/-- Status record: `duration` models `statusStore.duration` and
`executorsTotalDCU` models `statusStore.executors?.totalDCU`, each
`undefined` as `none`. -/
structure StatusStore where
  duration : Option ℚ
  executorsTotalDCU : Option ℚ
deriving DecidableEq, Repr

/-- Per-query resource usage store (interface
`SparkSQLResourceUsageStore`): the two percentage fields keep JavaScript
number semantics because their divisions are unguarded against a zero
denominator. -/
structure SparkSQLResourceUsageStore where
  coreHourUsage : ℚ
  memoryGbHourUsage : ℚ
  dcu : ℚ
  wastedCoresRate : ℚ
  dcuPercentage : JsNum
  durationPercentage : JsNum
deriving DecidableEq, Repr

/-- Query record (the fields of `EnrichedSparkSQL` that the reducer
reads or writes). -/
structure EnrichedSparkSQL where
  id : Nat
  description : String
  submissionTimeEpoc : ℚ
  duration : ℚ
  successJobIds : List Nat
  failedJobIds : List Nat
  runningJobIds : List Nat
  stageMetrics : Option SparkMetricsStore
  resourceMetrics : Option SparkSQLResourceUsageStore
  failureReason : Option String
deriving DecidableEq, Repr

/-- The query store (interface `SparkSQLStore`). -/
structure SparkSQLStore where
  sqls : List EnrichedSparkSQL
deriving DecidableEq, Repr

/-- Per-executor contribution inside `calculateSqlQueryResourceUsage`:
overlap of the executor lifetime window with the query window, times
cores for `coreUsageMs`; `coreHour`/`memoryHour` by ms-to-hours
conversion (memory size chosen by the driver check on the executor id
and converted from bytes to GB); DCU with the fixed 0.05 / 0.005
weights. -/
def executorContribution (configStore : ConfigStore) (queryStart queryEnd : ℚ)
    (executor : SparkExecutor) : ResourceUsage :=
  let intersectTime :=
    intersectLength executor.addTimeEpoc executor.endTimeEpoc queryStart queryEnd
  let memoryGB :=
    (if executor.id = "driver" then configStore.driverMemoryBytes
     else configStore.executorContainerMemoryBytes) / 1024 / 1024 / 1024
  let coreUsageMs := intersectTime * executor.totalCores
  let coreHour := msToHours coreUsageMs
  let memoryHour := msToHours (intersectTime * memoryGB)
  let totalDCU := coreHour * 0.05 + memoryHour * 0.005
  { coreUsageMs := coreUsageMs, coreHour := coreHour,
    memoryHour := memoryHour, totalDCU := totalDCU }

/-- Field-wise addition used by the `reduce` step of
`calculateSqlQueryResourceUsage`. -/
def addResourceUsage (a b : ResourceUsage) : ResourceUsage :=
  { coreUsageMs := a.coreUsageMs + b.coreUsageMs,
    coreHour := a.coreHour + b.coreHour,
    memoryHour := a.memoryHour + b.memoryHour,
    totalDCU := a.totalDCU + b.totalDCU }

/-- The zero `ResourceUsage`, the `reduce` initial value in the
source. -/
def zeroResourceUsage : ResourceUsage :=
  { coreUsageMs := 0, coreHour := 0, memoryHour := 0, totalDCU := 0 }

/-- Embedding of `calculateSqlQueryResourceUsage`: map every executor to
its contribution against the query window
`[submissionTimeEpoc, submissionTimeEpoc + duration)` and sum the
contributions field-wise. -/
def calculateSqlQueryResourceUsage (configStore : ConfigStore)
    (sql : EnrichedSparkSQL) (executors : List SparkExecutor) : ResourceUsage :=
  let queryEndTimeEpoc := sql.submissionTimeEpoc + sql.duration
  ((executors.map
      (executorContribution configStore sql.submissionTimeEpoc queryEndTimeEpoc)).foldl
    addResourceUsage zeroResourceUsage)

/-- The concatenated job-id list of a query
(`successJobIds.concat(failedJobIds).concat(runningJobIds)`). -/
def allJobsIdsOf (sql : EnrichedSparkSQL) : List Nat :=
  sql.successJobIds ++ sql.failedJobIds ++ sql.runningJobIds

/-- The newly summed per-query metric total: sum of the metrics of the
jobs whose id is among the query's job ids. -/
def sqlTotal (jobs : List SparkJob) (sql : EnrichedSparkSQL) : SparkMetricsStore :=
  sumMetricStores
    ((jobs.filter (fun job => (allJobsIdsOf sql).contains job.jobId)).map (·.metrics))

/-- First map of the reducer: recompute the query total and suppress the
update (returning the previous record) when it is structurally equal to
the previous total. -/
def processSqlMetrics (jobs : List SparkJob) (sql : EnrichedSparkSQL) :
    EnrichedSparkSQL :=
  let sqlMetric := sqlTotal jobs sql
  if some sqlMetric = sql.stageMetrics then sql
  else { sql with stageMetrics := some sqlMetric }

/-- Second map of the reducer: compute both resource-usage variants,
the wasted-cores rate from the executors-only variant, and the
percentage-normalized resource usage store. -/
def processSqlResource (configStore : ConfigStore) (statusStore : StatusStore)
    (executors : List SparkExecutor) (sql : EnrichedSparkSQL) : EnrichedSparkSQL :=
  let resourceUsageWithDriver := calculateSqlQueryResourceUsage configStore sql executors
  let resourceUsageExecutorsOnly :=
    if executors.length = 1 then resourceUsageWithDriver
    else calculateSqlQueryResourceUsage configStore sql
      (executors.filter (fun executor => !executor.isDriver))
  let totalTasksTime : ℚ :=
    ((sql.stageMetrics.map (fun m => (m.executorRunTime : ℚ))).getD 0)
  let resourceUsageStore : SparkSQLResourceUsageStore :=
    { coreHourUsage := resourceUsageWithDriver.coreHour,
      memoryGbHourUsage := resourceUsageWithDriver.memoryHour,
      dcu := resourceUsageWithDriver.totalDCU,
      wastedCoresRate :=
        wastedCoresRate totalTasksTime resourceUsageExecutorsOnly.coreUsageMs,
      dcuPercentage :=
        dcuPercentageOf statusStore.executorsTotalDCU resourceUsageWithDriver.totalDCU,
      durationPercentage := durationPercentageOf statusStore.duration sql.duration }
  { sql with resourceMetrics := some resourceUsageStore }

/-- Modelled from the spec: the status value `SqlStatus.Failed` comes
from `interfaces/SparkSQLs`, which is not among the provided sources;
the spec's failure attribution matches stages whose status is
"failed". -/
def sqlStatusFailed : String := "FAILED"

/-- Third map of the reducer (failure attribution): collect the stages
of the query's failed jobs and take the failure reason of the first one
whose status is failed; the query's `failureReason` field is overwritten
with that value (or with `undefined` when there is none). -/
def attributeFailure (jobs : List SparkJob) (stages : List StageStoreEntry)
    (sql : EnrichedSparkSQL) : EnrichedSparkSQL :=
  let failedSqlJobs := jobs.filter (fun job => sql.failedJobIds.contains job.jobId)
  let jobsStagesIds := failedSqlJobs.flatMap (·.stageIds)
  let jobsStages := stages.filter (fun stage => jobsStagesIds.contains stage.stageId)
  let failureReason :=
    (jobsStages.find? (fun stage => stage.status = sqlStatusFailed)).bind
      (·.failureReason)
  { sql with failureReason := failureReason }

/-- Modelled from the spec: `calculateSqlStage` (the per-node breakdown
step of `SQLNodeStageReducer`) is not among the provided sources; the
spec places it out of scope and says it only attaches additional
per-stage diagnostic data, so on the fields modelled here it is the
identity. -/
def calculateSqlStage (sql : EnrichedSparkSQL) (stages : List StageStoreEntry)
    (jobs : List SparkJob) : EnrichedSparkSQL :=
  sql

/-- The composition applied to each query record by the reducer, in the
source's order: metrics totals with change suppression, then resource
usage, then failure attribution, then the per-node breakdown step. -/
def processOneSql (configStore : ConfigStore) (statusStore : StatusStore)
    (jobs : List SparkJob) (stages : List StageStoreEntry)
    (executors : List SparkExecutor) (sql : EnrichedSparkSQL) : EnrichedSparkSQL :=
  calculateSqlStage
    (attributeFailure jobs stages
      (processSqlResource configStore statusStore executors
        (processSqlMetrics jobs sql)))
    stages jobs

/-- Embedding of `calculateSqlQueryLevelMetricsReducer`: the four `map`
passes over `existingStore.sqls`. -/
def calculateSqlQueryLevelMetricsReducer (configStore : ConfigStore)
    (existingStore : SparkSQLStore) (statusStore : StatusStore)
    (jobs : List SparkJob) (stages : List StageStoreEntry)
    (executors : List SparkExecutor) : SparkSQLStore :=
  { sqls :=
      ((((existingStore.sqls.map (processSqlMetrics jobs)).map
          (processSqlResource configStore statusStore executors)).map
        (attributeFailure jobs stages)).map
      (fun sql => calculateSqlStage sql stages jobs)) }

/-! Helper lemmas. -/

lemma foldl_add_eq_sum {M : Type} [AddCommMonoid M] (l : List M) (n : M) :
    l.foldl (· + ·) n = n + l.sum := by
  induction l generalizing n with
  | nil => simp
  | cons a t ih => simp [List.foldl_cons, ih, add_assoc]

lemma sumMetricStores_executorRunTime (l : List SparkMetricsStore) :
    (sumMetricStores l).executorRunTime = (l.map (·.executorRunTime)).sum := by
  simp [sumMetricStores, foldl_add_eq_sum]

lemma sumMetricStores_perm {l1 l2 : List SparkMetricsStore} (h : l1.Perm l2) :
    sumMetricStores l1 = sumMetricStores l2 := by
  have e : ∀ f : SparkMetricsStore → Nat, (l1.map f).sum = (l2.map f).sum :=
    fun f => (h.map f).sum_eq
  simp only [sumMetricStores, foldl_add_eq_sum, Nat.zero_add, e]

/-- Sample aggregated stage record used in concrete instances: a stage
with the given id and metrics and no optional data. -/
def mkEntry (i : Nat) (m : SparkMetricsStore) : StageStoreEntry :=
  { stageId := i, name := "", status := "COMPLETE", numTasks := 0,
    failureReason := none, stagesRdd := none, hasPartitionSkew := none,
    mediumTaskDuration := none, maxTaskDuration := none, metrics := m }

/-- C8: Metrics summation is a commutative monoid field-wise: the empty
sum is the zero-valued record, a two-element sum adds field-wise, and
summation is commutative and associative with the zero record as
identity. -/
theorem metrics_sum_commMonoid :
    sumMetricStores [] = zeroMetrics ∧
    (∀ a b : SparkMetricsStore, sumMetricStores [a, b] =
      { executorRunTime := a.executorRunTime + b.executorRunTime,
        diskBytesSpilled := a.diskBytesSpilled + b.diskBytesSpilled,
        inputBytes := a.inputBytes + b.inputBytes,
        outputBytes := a.outputBytes + b.outputBytes,
        shuffleReadBytes := a.shuffleReadBytes + b.shuffleReadBytes,
        shuffleWriteBytes := a.shuffleWriteBytes + b.shuffleWriteBytes,
        totalTasks := a.totalTasks + b.totalTasks }) ∧
    (∀ a b : SparkMetricsStore, sumMetricStores [a, b] = sumMetricStores [b, a]) ∧
    (∀ a b c : SparkMetricsStore,
      sumMetricStores [sumMetricStores [a, b], c] =
        sumMetricStores [a, sumMetricStores [b, c]]) ∧
    (∀ a : SparkMetricsStore, sumMetricStores [a, zeroMetrics] = a) ∧
    (∀ a : SparkMetricsStore, sumMetricStores [zeroMetrics, a] = a) := by
  refine ⟨rfl, ?_, ?_, ?_, ?_, ?_⟩ <;>
    intros <;> simp [sumMetricStores, zeroMetrics, SparkMetricsStore.mk.injEq] <;> omega

/-- C7: Job metrics are the sum of the metrics of exactly the stages
whose id is in the id list: invariant under permutation of the stage
collection, unaffected by stages with ids outside the list, unaffected
by duplicated ids, zero when no stage matches (and for an empty id
list), and on the concrete example stageIds = [1, 3] over stages
{1 : m1, 2 : m2, 3 : m3} the result is the sum of m1 and m3. -/
theorem jobsMetrics_sum_spec (stagesIds : List Nat)
    (stageMetrics stageMetrics2 : List StageStoreEntry) (s : StageStoreEntry)
    (m1 m2 m3 : SparkMetricsStore) :
    (stageMetrics.Perm stageMetrics2 →
      calculateJobsMetrics stagesIds stageMetrics =
        calculateJobsMetrics stagesIds stageMetrics2) ∧
    (¬ stagesIds.contains s.stageId →
      calculateJobsMetrics stagesIds (s :: stageMetrics) =
        calculateJobsMetrics stagesIds stageMetrics) ∧
    (calculateJobsMetrics (stagesIds ++ stagesIds) stageMetrics =
      calculateJobsMetrics stagesIds stageMetrics) ∧
    (stageMetrics.filter (fun stage => stagesIds.contains stage.stageId) = [] →
      calculateJobsMetrics stagesIds stageMetrics = zeroMetrics) ∧
    (calculateJobsMetrics [] stageMetrics = zeroMetrics) ∧
    (calculateJobsMetrics [1, 3] [mkEntry 1 m1, mkEntry 2 m2, mkEntry 3 m3] =
      sumMetricStores [m1, m3]) := by
  refine ⟨?_, ?_, ?_, ?_, ?_, ?_⟩
  · intro h
    exact sumMetricStores_perm (((h.filter _).map _))
  · intro h
    simp only [calculateJobsMetrics, List.filter_cons]
    rw [if_neg (by simpa using h)]
  · unfold calculateJobsMetrics
    congr 1
    apply congrArg
    apply List.filter_congr
    intro x _
    simp [List.contains, List.mem_append]
  · intro h
    unfold calculateJobsMetrics
    rw [h]
    rfl
  · simp [calculateJobsMetrics, sumMetricStores, zeroMetrics]
  · rfl

/-- Witness for C7: the permutation and absent-id hypotheses discharged
at concrete inputs. -/
theorem jobsMetrics_sum_spec_witness :
    calculateJobsMetrics [1] [mkEntry 2 zeroMetrics, mkEntry 1 zeroMetrics] =
      calculateJobsMetrics [1] [mkEntry 1 zeroMetrics, mkEntry 2 zeroMetrics] ∧
    calculateJobsMetrics [1] [mkEntry 5 zeroMetrics] = calculateJobsMetrics [1] [] :=
  ⟨(jobsMetrics_sum_spec [1] [mkEntry 2 zeroMetrics, mkEntry 1 zeroMetrics]
      [mkEntry 1 zeroMetrics, mkEntry 2 zeroMetrics] (mkEntry 5 zeroMetrics)
      zeroMetrics zeroMetrics zeroMetrics).1
      (List.Perm.swap (mkEntry 1 zeroMetrics) (mkEntry 2 zeroMetrics) []),
   (jobsMetrics_sum_spec [1] [] [] (mkEntry 5 zeroMetrics)
      zeroMetrics zeroMetrics zeroMetrics).2.1 (by decide)⟩

/-- C6: no stage with the SKIPPED status appears in the aggregated
stage output, and prepending a skipped stage to the raw input leaves the
output (and hence everything computed from it) unchanged. -/
theorem stagesStore_excludes_skipped (existing : Option (List StageStoreEntry))
    (rdd : Nat → Option String) (stages : List SparkStage)
    (entry : StageStoreEntry) (s : SparkStage) :
    (entry ∈ calculateStagesStore existing rdd stages → entry.status ≠ "SKIPPED") ∧
    (s.status = "SKIPPED" →
      calculateStagesStore existing rdd (s :: stages) =
        calculateStagesStore existing rdd stages) := by
  constructor
  · intro h
    simp only [calculateStagesStore, List.mem_map, List.mem_filter] at h
    obtain ⟨x, ⟨-, hx⟩, rfl⟩ := h
    simpa using hx
  · intro h
    simp [calculateStagesStore, List.filter_cons, h]

/-- Sample raw stage with the given status and optional task-duration
distribution, used in concrete instances. -/
def mkRawStage (st : String) (dist : Option (List ℚ)) : SparkStage :=
  { stageId := 0, name := "", status := st, numTasks := 0, failureReason := none,
    taskMetricsDistributions := dist, executorRunTime := 0, diskBytesSpilled := 0,
    inputBytes := 0, outputBytes := 0, shuffleReadBytes := 0, shuffleWriteBytes := 0 }

/-- Witness for C6: both hypotheses discharged at concrete inputs. -/
theorem stagesStore_excludes_skipped_witness :
    calculateStagesStore none (fun _ => none) [mkRawStage "SKIPPED" none] =
      calculateStagesStore none (fun _ => none) [] ∧
    (mkEntry 0 zeroMetrics).status ≠ "SKIPPED" :=
  ⟨(stagesStore_excludes_skipped none (fun _ => none) [] (mkEntry 0 zeroMetrics)
      (mkRawStage "SKIPPED" none)).2 rfl,
   (stagesStore_excludes_skipped none (fun _ => none) [mkRawStage "COMPLETE" none]
      (mkEntry 0 zeroMetrics) (mkRawStage "SKIPPED" none)).1 (by decide)⟩

/-- C4: skew classification is `undefined` when the distribution is
absent; when present, skew holds exactly when max > 5000 and median ≠ 0
and max / median > 10 (median and max being entries 2 and 4 of the
distribution); distribution [0,0,1000,0,12000] is classified as skewed
and [0,0,1000,0,9000] as not skewed. -/
theorem partitionSkew_classification (stage : SparkStage) (dist : List ℚ) :
    (stage.taskMetricsDistributions = none → calculatePartitionSkew stage = none) ∧
    (stage.taskMetricsDistributions = some dist →
      (calculatePartitionSkew stage).map (·.hasPartitionSkew) =
        some (decide (dist.getD 4 0 > 5000 ∧ dist.getD 2 0 ≠ 0 ∧
          dist.getD 4 0 / dist.getD 2 0 > 10))) ∧
    ((calculatePartitionSkew
        (mkRawStage "COMPLETE" (some [0, 0, 1000, 0, 12000]))).map
      (·.hasPartitionSkew) = some true) ∧
    ((calculatePartitionSkew
        (mkRawStage "COMPLETE" (some [0, 0, 1000, 0, 9000]))).map
      (·.hasPartitionSkew) = some false) := by
  refine ⟨?_, ?_,
    by norm_num [calculatePartitionSkew, mkRawStage, maxTaskDurationThresholdMs,
      partitionSkewFactor, List.getD],
    by norm_num [calculatePartitionSkew, mkRawStage, maxTaskDurationThresholdMs,
      partitionSkewFactor, List.getD]⟩
  · intro h
    simp [calculatePartitionSkew, h]
  · intro h
    simp only [calculatePartitionSkew, h]
    by_cases hc : dist.getD 4 0 > maxTaskDurationThresholdMs ∧ dist.getD 2 0 ≠ 0 ∧
        dist.getD 4 0 / dist.getD 2 0 > partitionSkewFactor
    · have hd : decide (dist.getD 4 0 > 5000 ∧ dist.getD 2 0 ≠ 0 ∧
          dist.getD 4 0 / dist.getD 2 0 > 10) = true :=
        decide_eq_true
          (by simpa [maxTaskDurationThresholdMs, partitionSkewFactor] using hc)
      rw [if_pos hc, hd]
      rfl
    · have hd : decide (dist.getD 4 0 > 5000 ∧ dist.getD 2 0 ≠ 0 ∧
          dist.getD 4 0 / dist.getD 2 0 > 10) = false :=
        decide_eq_false
          (by simpa [maxTaskDurationThresholdMs, partitionSkewFactor] using hc)
      rw [if_neg hc, hd]
      rfl

/-- Witness for C4: both hypotheses discharged at concrete inputs. -/
theorem partitionSkew_classification_witness :
    calculatePartitionSkew (mkRawStage "COMPLETE" none) = none ∧
    (calculatePartitionSkew (mkRawStage "COMPLETE" (some [0, 0, 1000, 0, 12000]))).map
        (·.hasPartitionSkew) =
      some (decide (([0, 0, 1000, 0, 12000] : List ℚ).getD 4 0 > 5000 ∧
        ([0, 0, 1000, 0, 12000] : List ℚ).getD 2 0 ≠ 0 ∧
        ([0, 0, 1000, 0, 12000] : List ℚ).getD 4 0 /
          ([0, 0, 1000, 0, 12000] : List ℚ).getD 2 0 > 10)) :=
  ⟨(partitionSkew_classification (mkRawStage "COMPLETE" none) []).1 rfl,
   (partitionSkew_classification (mkRawStage "COMPLETE" (some [0, 0, 1000, 0, 12000]))
      [0, 0, 1000, 0, 12000]).2.1 rfl⟩

/-- Counterexample for C5: on the present distribution
[0,0,1000,0,9000] the thresholds are not met, and the result omits the
median and max task durations (they are `undefined`), both on the skew
result and on the aggregated stage record, although median = 1000 and
max = 9000 are computable. -/
theorem partitionSkew_false_branch_counterexample :
    calculatePartitionSkew (mkRawStage "COMPLETE" (some [0, 0, 1000, 0, 9000])) =
      some { hasPartitionSkew := false, medianTaskDuration := none,
             maxTaskDuration := none } ∧
    (calculateStagesStore none (fun _ => none)
        [mkRawStage "COMPLETE" (some [0, 0, 1000, 0, 9000])]).map
      (fun e => (e.hasPartitionSkew, e.mediumTaskDuration, e.maxTaskDuration)) =
      [(some false, none, none)] := by
  have h9 : calculatePartitionSkew (mkRawStage "COMPLETE" (some [0, 0, 1000, 0, 9000])) =
      some { hasPartitionSkew := false, medianTaskDuration := none,
             maxTaskDuration := none } := by
    norm_num [calculatePartitionSkew, mkRawStage, maxTaskDurationThresholdMs,
      partitionSkewFactor, List.getD]
  refine ⟨h9, ?_⟩
  simp [calculateStagesStore, List.filter_cons, h9,
    show (mkRawStage "COMPLETE" (some [0, 0, 1000, 0, 9000])).status = "COMPLETE" from rfl]

/-- C5 as amended: when the distribution is present but the thresholds
are not met, the skew result is `false` and the median and max task
durations are omitted (absent), both in the skew result and in the
aggregated stage record. -/
theorem partitionSkew_false_branch_amended (stage : SparkStage) (dist : List ℚ)
    (h : stage.taskMetricsDistributions = some dist)
    (hn : ¬ (dist.getD 4 0 > 5000 ∧ dist.getD 2 0 ≠ 0 ∧
      dist.getD 4 0 / dist.getD 2 0 > 10)) :
    calculatePartitionSkew stage =
      some { hasPartitionSkew := false, medianTaskDuration := none,
             maxTaskDuration := none } ∧
    (stage.status ≠ "SKIPPED" → ∀ existing rdd,
      (calculateStagesStore existing rdd [stage]).map
        (fun e => (e.hasPartitionSkew, e.mediumTaskDuration, e.maxTaskDuration)) =
        [(some false, none, none)]) := by
  have hskew : calculatePartitionSkew stage =
      some { hasPartitionSkew := false, medianTaskDuration := none,
             maxTaskDuration := none } := by
    simp only [calculatePartitionSkew, h]
    rw [if_neg (by simpa [maxTaskDurationThresholdMs, partitionSkewFactor] using hn)]
  refine ⟨hskew, ?_⟩
  intro hst existing rdd
  simp [calculateStagesStore, List.filter_cons, hst, hskew]

/-- Witness for C5's amended theorem: hypotheses discharged on the
concrete [0,0,1000,0,9000] distribution. -/
theorem partitionSkew_false_branch_amended_witness :
    calculatePartitionSkew (mkRawStage "PENDING" (some [0, 0, 1000, 0, 9000])) =
      some { hasPartitionSkew := false, medianTaskDuration := none,
             maxTaskDuration := none } ∧
    (calculateStagesStore none (fun _ => none)
        [mkRawStage "PENDING" (some [0, 0, 1000, 0, 9000])]).map
      (fun e => (e.hasPartitionSkew, e.mediumTaskDuration, e.maxTaskDuration)) =
      [(some false, none, none)] :=
  ⟨(partitionSkew_false_branch_amended
      (mkRawStage "PENDING" (some [0, 0, 1000, 0, 9000])) [0, 0, 1000, 0, 9000]
      rfl (by norm_num [List.getD])).1,
   (partitionSkew_false_branch_amended
      (mkRawStage "PENDING" (some [0, 0, 1000, 0, 9000])) [0, 0, 1000, 0, 9000]
      rfl (by norm_num [List.getD])).2 (by decide) none (fun _ => none)⟩

/-- Sample configuration: 1 GiB for driver and executor containers. -/
def sampleConfig : ConfigStore :=
  { driverMemoryBytes := 1073741824, executorContainerMemoryBytes := 1073741824 }

/-- Sample non-driver executor with 1 core, alive on the window
[0, 100) ms. -/
def sampleExecutor : SparkExecutor :=
  { id := "1", isDriver := false, addTimeEpoc := 0, endTimeEpoc := 100,
    totalCores := 1 }

/-- Sample query over the window [0, 1000) ms whose summed stage metrics
report 200 ms of task run time. -/
def sampleSql : EnrichedSparkSQL :=
  { id := 0, description := "", submissionTimeEpoc := 0, duration := 1000,
    successJobIds := [], failedJobIds := [], runningJobIds := [],
    stageMetrics := some { zeroMetrics with executorRunTime := 200 },
    resourceMetrics := none, failureReason := none }

/-- Counterexample for C1: with 200 ms of total task run time against
100 ms of executors-only core usage the wasted-cores rate is −100, which
is negative — `Math.min(100, ·)` clamps only from above. The second
conjunct exhibits the negative rate on the reducer's resource-usage step
itself at a concrete input. -/
theorem wastedCoresRate_negative_counterexample :
    wastedCoresRate 200 100 = -100 ∧
    ((processSqlResource sampleConfig { duration := none, executorsTotalDCU := none }
        [sampleExecutor] sampleSql).resourceMetrics).map (·.wastedCoresRate) =
      some (-100) := by
  have h1 : wastedCoresRate 200 100 = -100 := by
    norm_num [wastedCoresRate]
  refine ⟨h1, ?_⟩
  have hcore : (calculateSqlQueryResourceUsage sampleConfig sampleSql
      [sampleExecutor]).coreUsageMs = 100 := by
    norm_num [calculateSqlQueryResourceUsage, executorContribution, sampleConfig,
      sampleSql, sampleExecutor, intersectLength, addResourceUsage,
      zeroResourceUsage, msToHours]
  have htt : ((sampleSql.stageMetrics.map (fun m => (m.executorRunTime : ℚ))).getD 0) =
      200 := by
    norm_num [sampleSql]
  simp [processSqlResource, htt, hcore, h1]

/-- C1 as amended: the wasted-cores rate equals
`min(100, (1 − totalTaskRunTime / coreUsageMs) × 100)` when the
executors-only core usage is non-zero and 0 when it is zero; it is
always ≤ 100 and lies in [0, 100] whenever
`totalTaskRunTime ≤ coreUsageMs`, but it is negative (not clamped to 0)
whenever `0 < coreUsageMs < totalTaskRunTime`. The last conjunct states
that the reducer's resource step stores exactly this rate, applied to
the query's summed task run time and the executors-only core usage. -/
theorem wastedCoresRate_formula_and_bounds (t c : ℚ) :
    (c ≠ 0 → wastedCoresRate t c = min 100 ((1 - t / c) * 100)) ∧
    wastedCoresRate t 0 = 0 ∧
    wastedCoresRate t c ≤ 100 ∧
    (0 ≤ t → t ≤ c → 0 ≤ wastedCoresRate t c ∧ wastedCoresRate t c ≤ 100) ∧
    (0 < c → c < t → wastedCoresRate t c < 0) ∧
    (∀ (configStore : ConfigStore) (statusStore : StatusStore)
        (executors : List SparkExecutor) (sql : EnrichedSparkSQL),
      ((processSqlResource configStore statusStore executors sql).resourceMetrics).map
          (·.wastedCoresRate) =
        some (wastedCoresRate
          ((sql.stageMetrics.map (fun m => (m.executorRunTime : ℚ))).getD 0)
          (if executors.length = 1 then
            (calculateSqlQueryResourceUsage configStore sql executors).coreUsageMs
          else
            (calculateSqlQueryResourceUsage configStore sql
              (executors.filter (fun executor => !executor.isDriver))).coreUsageMs))) := by
  refine ⟨?_, ?_, ?_, ?_, ?_, ?_⟩
  · intro hc
    simp [wastedCoresRate, hc]
  · simp [wastedCoresRate]
  · by_cases hc : c = 0
    · simp [wastedCoresRate, hc]
    · simp only [wastedCoresRate, if_pos hc]
      exact min_le_left _ _
  · intro ht htc
    by_cases hc : c = 0
    · subst hc
      have : t = 0 := le_antisymm htc ht
      simp [wastedCoresRate, this]
    · have hcpos : 0 < c := lt_of_le_of_ne (ht.trans htc) (Ne.symm hc)
      have hdiv : t / c ≤ 1 := (div_le_one hcpos).mpr htc
      constructor
      · simp only [wastedCoresRate, if_pos hc]
        refine le_min (by norm_num) ?_
        nlinarith
      · simp only [wastedCoresRate, if_pos hc]
        exact min_le_left _ _
  · intro hcpos hct
    have hc : c ≠ 0 := ne_of_gt hcpos
    have hdiv : 1 < t / c := (one_lt_div hcpos).mpr hct
    simp only [wastedCoresRate, if_pos hc]
    have : (1 - t / c) * 100 < 0 := by nlinarith
    exact lt_of_le_of_lt (min_le_right _ _) this
  · intro configStore statusStore executors sql
    by_cases hl : executors.length = 1
    · simp [processSqlResource, hl]
    · simp [processSqlResource, hl]

/-- Witness for C1's amended theorem: hypotheses discharged at concrete
rates. -/
theorem wastedCoresRate_formula_and_bounds_witness :
    wastedCoresRate 50 100 = min 100 ((1 - 50 / 100) * 100) ∧
    (0 ≤ wastedCoresRate 50 100 ∧ wastedCoresRate 50 100 ≤ 100) ∧
    wastedCoresRate 200 100 < 0 :=
  ⟨(wastedCoresRate_formula_and_bounds 50 100).1 (by norm_num),
   (wastedCoresRate_formula_and_bounds 50 100).2.2.2.1 (by norm_num) (by norm_num),
   (wastedCoresRate_formula_and_bounds 200 100).2.2.2.2.1 (by norm_num) (by norm_num)⟩

/-- Counterexample for C2: when the run-total duration is supplied as 0
(not `undefined`), the duration percentage of a query of duration 150 is
`Math.min(100, Infinity) = 100`, not 0; with numerator 0 it is NaN. The
last conjunct exhibits the 100 on the reducer's resource step at a
concrete input (`sampleSql` has duration 1000, run total 0). -/
theorem percentages_zero_denominator_counterexample :
    durationPercentageOf (some 0) 150 = JsNum.num 100 ∧
    durationPercentageOf (some 0) 150 ≠ JsNum.num 0 ∧
    durationPercentageOf (some 0) 0 = JsNum.nan ∧
    dcuPercentageOf (some 0) 150 = JsNum.num 100 ∧
    ((processSqlResource sampleConfig { duration := some 0, executorsTotalDCU := none }
        [sampleExecutor] sampleSql).resourceMetrics).map (·.durationPercentage) =
      some (JsNum.num 100) := by
  refine ⟨?_, by decide, by decide, ?_, ?_⟩
  · norm_num [durationPercentageOf, jsDiv, jsMul, jsMin]
  · norm_num [dcuPercentageOf, jsDiv, jsMul, jsMin]
  · have h150 : durationPercentageOf (some 0) (sampleSql.duration) = JsNum.num 100 := by
      norm_num [durationPercentageOf, jsDiv, jsMul, jsMin, sampleSql]
    simp [processSqlResource, h150]

/-- C2 as amended: both percentage computations yield 0 when their
denominator is unknown (`undefined`); when the denominator is supplied
and non-zero they yield `min(100, numerator / denominator × 100)` as a
finite number; but when the denominator is supplied as 0 the division is
unguarded: the result is 100 for a positive numerator and NaN for a zero
numerator, never 0. The last conjunct states that the reducer's
resource step stores exactly these two computations. -/
theorem percentages_zero_denominator_amended (q d : ℚ) :
    durationPercentageOf none q = JsNum.num 0 ∧
    dcuPercentageOf none q = JsNum.num 0 ∧
    (d ≠ 0 → durationPercentageOf (some d) q = JsNum.num (min 100 (q / d * 100))) ∧
    (d ≠ 0 → dcuPercentageOf (some d) q = JsNum.num (min 100 (q / d * 100))) ∧
    (0 < q → durationPercentageOf (some 0) q = JsNum.num 100) ∧
    durationPercentageOf (some 0) 0 = JsNum.nan ∧
    (0 < q → dcuPercentageOf (some 0) q = JsNum.num 100) ∧
    dcuPercentageOf (some 0) 0 = JsNum.nan ∧
    (∀ (configStore : ConfigStore) (statusStore : StatusStore)
        (executors : List SparkExecutor) (sql : EnrichedSparkSQL),
      ((processSqlResource configStore statusStore executors sql).resourceMetrics).map
          (fun r => (r.durationPercentage, r.dcuPercentage)) =
        some (durationPercentageOf statusStore.duration sql.duration,
          dcuPercentageOf statusStore.executorsTotalDCU
            (calculateSqlQueryResourceUsage configStore sql executors).totalDCU)) := by
  refine ⟨rfl, rfl, ?_, ?_, ?_, by decide, ?_, by decide, ?_⟩
  · intro hd
    simp [durationPercentageOf, jsDiv, jsMul, jsMin, hd]
  · intro hd
    simp [dcuPercentageOf, jsDiv, jsMul, jsMin, hd]
  · intro hq
    simp [durationPercentageOf, jsDiv, jsMul, jsMin, ne_of_gt hq, hq]
  · intro hq
    simp [dcuPercentageOf, jsDiv, jsMul, jsMin, ne_of_gt hq, hq]
  · intro configStore statusStore executors sql
    simp [processSqlResource]

/-- Witness for C2's amended theorem: hypotheses discharged at concrete
inputs. -/
theorem percentages_zero_denominator_amended_witness :
    durationPercentageOf (some 200) 50 = JsNum.num (min 100 (50 / 200 * 100)) ∧
    durationPercentageOf (some 0) 150 = JsNum.num 100 ∧
    dcuPercentageOf (some 0) 150 = JsNum.num 100 :=
  ⟨(percentages_zero_denominator_amended 50 200).2.2.1 (by norm_num),
   (percentages_zero_denominator_amended 150 0).2.2.2.2.1 (by norm_num),
   (percentages_zero_denominator_amended 150 0).2.2.2.2.2.2.1 (by norm_num)⟩

lemma foldl_addResourceUsage (l : List ResourceUsage) (z : ResourceUsage) :
    l.foldl addResourceUsage z =
      { coreUsageMs := z.coreUsageMs + (l.map (·.coreUsageMs)).sum,
        coreHour := z.coreHour + (l.map (·.coreHour)).sum,
        memoryHour := z.memoryHour + (l.map (·.memoryHour)).sum,
        totalDCU := z.totalDCU + (l.map (·.totalDCU)).sum } := by
  induction l generalizing z with
  | nil => simp
  | cons a t ih => simp [List.foldl_cons, ih, addResourceUsage, add_assoc]

/-- Sample executor for the spec's interval example: window [0, 1000) ms
with 4 cores, not the driver. -/
def exampleExecutor : SparkExecutor :=
  { id := "2", isDriver := false, addTimeEpoc := 0, endTimeEpoc := 1000,
    totalCores := 4 }

/-- Sample query for the spec's interval example: window
[500, 1500) ms. -/
def exampleSql : EnrichedSparkSQL :=
  { id := 1, description := "", submissionTimeEpoc := 500, duration := 1000,
    successJobIds := [], failedJobIds := [], runningJobIds := [],
    stageMetrics := none, resourceMetrics := none, failureReason := none }

/-- C3: the query's `ResourceUsage` is the field-wise sum over executors
of the per-executor contributions: overlap of the half-open windows
(length of `[max(starts), min(ends))`, clamped at 0) times cores for
`coreUsageMs`; that value over 3,600,000 for `coreHour`; overlap times
memoryGB (configured bytes over 1024³, driver memory for the driver)
over 3,600,000 for `memoryHour`; and `coreHour × 0.05 +
memoryHour × 0.005` for `totalDCU`. On the concrete example — executor
window [0, 1000) ms with 4 cores, query window [500, 1500) ms — the
overlap is 500 ms, `coreUsageMs` is 2000, and the DCU follows the
weighted formula exactly with memoryGB = 1. -/
theorem resourceUsage_fieldwise_sum (configStore : ConfigStore)
    (sql : EnrichedSparkSQL) (executors : List SparkExecutor) :
    ((calculateSqlQueryResourceUsage configStore sql executors).coreUsageMs =
      (executors.map (fun ex =>
        intersectLength ex.addTimeEpoc ex.endTimeEpoc sql.submissionTimeEpoc
          (sql.submissionTimeEpoc + sql.duration) * ex.totalCores)).sum) ∧
    ((calculateSqlQueryResourceUsage configStore sql executors).coreHour =
      (executors.map (fun ex =>
        intersectLength ex.addTimeEpoc ex.endTimeEpoc sql.submissionTimeEpoc
          (sql.submissionTimeEpoc + sql.duration) * ex.totalCores / 3600000)).sum) ∧
    ((calculateSqlQueryResourceUsage configStore sql executors).memoryHour =
      (executors.map (fun ex =>
        intersectLength ex.addTimeEpoc ex.endTimeEpoc sql.submissionTimeEpoc
          (sql.submissionTimeEpoc + sql.duration) *
          ((if ex.id = "driver" then configStore.driverMemoryBytes
            else configStore.executorContainerMemoryBytes) / 1024 ^ 3) / 3600000)).sum) ∧
    ((calculateSqlQueryResourceUsage configStore sql executors).totalDCU =
      (executors.map (fun ex =>
        intersectLength ex.addTimeEpoc ex.endTimeEpoc sql.submissionTimeEpoc
          (sql.submissionTimeEpoc + sql.duration) * ex.totalCores / 3600000 * 0.05 +
        intersectLength ex.addTimeEpoc ex.endTimeEpoc sql.submissionTimeEpoc
          (sql.submissionTimeEpoc + sql.duration) *
          ((if ex.id = "driver" then configStore.driverMemoryBytes
            else configStore.executorContainerMemoryBytes) / 1024 ^ 3) / 3600000 *
          0.005)).sum) ∧
    (∀ s1 e1 s2 e2 : ℚ, intersectLength s1 e1 s2 e2 = max 0 (min e1 e2 - max s1 s2)) ∧
    intersectLength exampleExecutor.addTimeEpoc exampleExecutor.endTimeEpoc
      exampleSql.submissionTimeEpoc
      (exampleSql.submissionTimeEpoc + exampleSql.duration) = 500 ∧
    (calculateSqlQueryResourceUsage sampleConfig exampleSql
      [exampleExecutor]).coreUsageMs = 2000 ∧
    (calculateSqlQueryResourceUsage sampleConfig exampleSql
      [exampleExecutor]).totalDCU =
      2000 / 3600000 * 0.05 + 500 * 1 / 3600000 * 0.005 := by
  have hfold : ∀ f : ResourceUsage → ℚ,
      f (calculateSqlQueryResourceUsage configStore sql executors) =
        f (({ coreUsageMs :=
                ((executors.map (executorContribution configStore
                  sql.submissionTimeEpoc (sql.submissionTimeEpoc + sql.duration))).map
                  (·.coreUsageMs)).sum,
              coreHour :=
                ((executors.map (executorContribution configStore
                  sql.submissionTimeEpoc (sql.submissionTimeEpoc + sql.duration))).map
                  (·.coreHour)).sum,
              memoryHour :=
                ((executors.map (executorContribution configStore
                  sql.submissionTimeEpoc (sql.submissionTimeEpoc + sql.duration))).map
                  (·.memoryHour)).sum,
              totalDCU :=
                ((executors.map (executorContribution configStore
                  sql.submissionTimeEpoc (sql.submissionTimeEpoc + sql.duration))).map
                  (·.totalDCU)).sum } : ResourceUsage)) := by
    intro f
    unfold calculateSqlQueryResourceUsage
    rw [foldl_addResourceUsage]
    simp [zeroResourceUsage]
  refine ⟨?_, ?_, ?_, ?_, fun s1 e1 s2 e2 => rfl, ?_, ?_, ?_⟩
  · rw [hfold (·.coreUsageMs)]
    simp only [List.map_map]
    congr 1
  · rw [hfold (·.coreHour)]
    simp only [List.map_map]
    congr 1
  · rw [hfold (·.memoryHour)]
    simp only [List.map_map]
    congr 1
    apply List.map_congr_left
    intro ex _
    simp only [executorContribution, Function.comp, msToHours]
    generalize (if ex.id = "driver" then configStore.driverMemoryBytes
      else configStore.executorContainerMemoryBytes) = B
    ring
  · rw [hfold (·.totalDCU)]
    simp only [List.map_map]
    congr 1
    apply List.map_congr_left
    intro ex _
    simp only [executorContribution, Function.comp, msToHours]
    generalize (if ex.id = "driver" then configStore.driverMemoryBytes
      else configStore.executorContainerMemoryBytes) = B
    ring
  · norm_num [exampleExecutor, exampleSql, intersectLength]
  · norm_num [calculateSqlQueryResourceUsage, executorContribution, exampleExecutor,
      exampleSql, sampleConfig, intersectLength, addResourceUsage, zeroResourceUsage,
      msToHours]
  · norm_num [calculateSqlQueryResourceUsage, executorContribution, exampleExecutor,
      exampleSql, sampleConfig, intersectLength, addResourceUsage, zeroResourceUsage,
      msToHours]

lemma processSqlMetrics_stageMetrics (jobs : List SparkJob)
    (sql : EnrichedSparkSQL) :
    (processSqlMetrics jobs sql).stageMetrics = some (sqlTotal jobs sql) := by
  by_cases h : some (sqlTotal jobs sql) = sql.stageMetrics
  · simp [processSqlMetrics, h]
  · simp [processSqlMetrics, h]

lemma processOneSql_stageMetrics (configStore : ConfigStore)
    (statusStore : StatusStore) (jobs : List SparkJob)
    (stages : List StageStoreEntry) (executors : List SparkExecutor)
    (sql : EnrichedSparkSQL) :
    (processOneSql configStore statusStore jobs stages executors sql).stageMetrics =
      some (sqlTotal jobs sql) := by
  simp only [processOneSql, calculateSqlStage]
  have h1 : ∀ s : EnrichedSparkSQL, (attributeFailure jobs stages s).stageMetrics =
      s.stageMetrics := fun s => rfl
  have h2 : ∀ s : EnrichedSparkSQL,
      (processSqlResource configStore statusStore executors s).stageMetrics =
        s.stageMetrics := fun s => rfl
  rw [h1, h2, processSqlMetrics_stageMetrics]

lemma filter_eq_of_subpred {α : Type} (p q : α → Bool)
    (hpq : ∀ x, q x = true → p x = true) :
    ∀ l l2 : List α, l.filter p = l2.filter p → l.filter q = l2.filter q := by
  have key : ∀ l : List α, l.filter q = (l.filter p).filter q := by
    intro l
    rw [List.filter_filter]
    apply List.filter_congr
    intro x _
    cases hq : q x with
    | true => simp [hpq x hq, hq]
    | false => simp [hq]
  intro l l2 h
  rw [key l, key l2, h]

lemma contains_allJobsIdsOf_of_failed (sql : EnrichedSparkSQL) (j : Nat)
    (h : sql.failedJobIds.contains j = true) :
    (allJobsIdsOf sql).contains j = true := by
  simp only [allJobsIdsOf, List.contains, List.elem_eq_mem, decide_eq_true_eq,
    List.mem_append] at h ⊢
  exact Or.inl (Or.inr h)

lemma attributeFailure_congr_jobs (jobs jobs2 : List SparkJob)
    (stages : List StageStoreEntry) (sql : EnrichedSparkSQL)
    (h : jobs.filter (fun job => (allJobsIdsOf sql).contains job.jobId) =
      jobs2.filter (fun job => (allJobsIdsOf sql).contains job.jobId)) :
    attributeFailure jobs stages sql = attributeFailure jobs2 stages sql := by
  have hf : jobs.filter (fun job => sql.failedJobIds.contains job.jobId) =
      jobs2.filter (fun job => sql.failedJobIds.contains job.jobId) :=
    filter_eq_of_subpred _ _
      (fun job hj => contains_allJobsIdsOf_of_failed sql job.jobId hj) jobs jobs2 h
  simp only [attributeFailure, hf]

lemma sqlTotal_congr_jobs (jobs jobs2 : List SparkJob) (sql : EnrichedSparkSQL)
    (h : jobs.filter (fun job => (allJobsIdsOf sql).contains job.jobId) =
      jobs2.filter (fun job => (allJobsIdsOf sql).contains job.jobId)) :
    sqlTotal jobs sql = sqlTotal jobs2 sql := by
  simp only [sqlTotal, h]

lemma sqlTotal_executorRunTime (jobs : List SparkJob) (sql : EnrichedSparkSQL) :
    (sqlTotal jobs sql).executorRunTime =
      ((jobs.filter (fun job => (allJobsIdsOf sql).contains job.jobId)).map
        (fun job => job.metrics.executorRunTime)).sum := by
  simp only [sqlTotal, sumMetricStores_executorRunTime, List.map_map]
  rfl

/-- C9: the reducer is deterministic (structurally identical inputs give
structurally identical outputs) and is the per-query map of a processing
function, so each query's output depends only on that query's record and
the global stores; when the newly summed total equals the previous
snapshot's total the metrics step returns the previous record unchanged
and the output retains the previous stage-metrics value; the output's
stage metrics are always the newly summed total, so queries whose totals
differ produce structurally different outputs — in particular changing
one matching job's run-time metric changes that query's output — while
queries whose matching jobs are unchanged produce identical outputs. -/
theorem reducer_deterministic_change_suppression (configStore : ConfigStore)
    (store store2 : SparkSQLStore) (statusStore : StatusStore)
    (jobs jobs2 : List SparkJob) (stages : List StageStoreEntry)
    (executors : List SparkExecutor) (sql : EnrichedSparkSQL) :
    (store = store2 →
      calculateSqlQueryLevelMetricsReducer configStore store statusStore jobs
          stages executors =
        calculateSqlQueryLevelMetricsReducer configStore store2 statusStore jobs
          stages executors) ∧
    ((calculateSqlQueryLevelMetricsReducer configStore store statusStore jobs
        stages executors).sqls =
      store.sqls.map (processOneSql configStore statusStore jobs stages executors)) ∧
    (some (sqlTotal jobs sql) = sql.stageMetrics →
      processSqlMetrics jobs sql = sql) ∧
    ((processOneSql configStore statusStore jobs stages executors sql).stageMetrics =
      some (sqlTotal jobs sql)) ∧
    (some (sqlTotal jobs sql) = sql.stageMetrics →
      (processOneSql configStore statusStore jobs stages executors sql).stageMetrics =
        sql.stageMetrics) ∧
    (sqlTotal jobs sql ≠ sqlTotal jobs2 sql →
      processOneSql configStore statusStore jobs stages executors sql ≠
        processOneSql configStore statusStore jobs2 stages executors sql) ∧
    (∀ (l1 l2 : List SparkJob) (j j2 : SparkJob),
      jobs = l1 ++ j :: l2 → jobs2 = l1 ++ j2 :: l2 → j2.jobId = j.jobId →
      (allJobsIdsOf sql).contains j.jobId = true →
      j2.metrics.executorRunTime ≠ j.metrics.executorRunTime →
      processOneSql configStore statusStore jobs stages executors sql ≠
        processOneSql configStore statusStore jobs2 stages executors sql) ∧
    (jobs.filter (fun job => (allJobsIdsOf sql).contains job.jobId) =
        jobs2.filter (fun job => (allJobsIdsOf sql).contains job.jobId) →
      processOneSql configStore statusStore jobs stages executors sql =
        processOneSql configStore statusStore jobs2 stages executors sql) := by
  have hdiff : sqlTotal jobs sql ≠ sqlTotal jobs2 sql →
      processOneSql configStore statusStore jobs stages executors sql ≠
        processOneSql configStore statusStore jobs2 stages executors sql := by
    intro hne heq
    apply hne
    have h2 := congrArg (fun s : EnrichedSparkSQL => s.stageMetrics) heq
    simp only [processOneSql_stageMetrics] at h2
    exact Option.some.inj h2
  refine ⟨?_, ?_, ?_, processOneSql_stageMetrics _ _ _ _ _ _, ?_, hdiff, ?_, ?_⟩
  · intro h
    rw [h]
  · simp only [calculateSqlQueryLevelMetricsReducer, List.map_map]
    rfl
  · intro h
    simp [processSqlMetrics, h]
  · intro h
    rw [processOneSql_stageMetrics]
    exact h
  · intro l1 l2 j j2 hj hj2 hid hmem hne
    apply hdiff
    intro htot
    apply hne
    have h3 := congrArg SparkMetricsStore.executorRunTime htot
    rw [sqlTotal_executorRunTime, sqlTotal_executorRunTime, hj, hj2] at h3
    rw [List.filter_append, List.filter_append, List.filter_cons,
      List.filter_cons, hid, hmem] at h3
    simp only [if_true, List.map_append, List.map_cons, List.sum_append,
      List.sum_cons] at h3
    omega
  · intro h
    have hm : processSqlMetrics jobs sql = processSqlMetrics jobs2 sql := by
      simp only [processSqlMetrics, sqlTotal_congr_jobs jobs jobs2 sql h]
    have hall : allJobsIdsOf (processSqlResource configStore statusStore executors
        (processSqlMetrics jobs2 sql)) = allJobsIdsOf sql := by
      have h1 : ∀ s : EnrichedSparkSQL,
          allJobsIdsOf (processSqlResource configStore statusStore executors s) =
            allJobsIdsOf s := fun s => rfl
      rw [h1]
      by_cases hc : some (sqlTotal jobs2 sql) = sql.stageMetrics <;>
        simp [processSqlMetrics, hc, allJobsIdsOf]
    simp only [processOneSql, calculateSqlStage, hm]
    apply attributeFailure_congr_jobs
    rw [hall]
    exact h

/-- Sample query owning job 1, whose previous snapshot total is the
zero record. -/
def sampleSqlJob1 : EnrichedSparkSQL :=
  { id := 2, description := "", submissionTimeEpoc := 0, duration := 0,
    successJobIds := [1], failedJobIds := [], runningJobIds := [],
    stageMetrics := some zeroMetrics, resourceMetrics := none,
    failureReason := none }

/-- Sample job 1 reporting 5 ms of run time. -/
def sampleJob : SparkJob :=
  { jobId := 1, name := "", description := "", status := "RUNNING",
    stageIds := [], metrics := { zeroMetrics with executorRunTime := 5 } }

/-- Sample job 1 with its run-time metric changed to 6 ms. -/
def sampleJob2 : SparkJob :=
  { jobId := 1, name := "", description := "", status := "RUNNING",
    stageIds := [], metrics := { zeroMetrics with executorRunTime := 6 } }

/-- Witness for C9: change suppression, sensitivity to a changed total,
sensitivity to a single changed job metric, and insensitivity to
untouched jobs, discharged at concrete inputs. -/
theorem reducer_deterministic_change_suppression_witness :
    processSqlMetrics [] sampleSqlJob1 = sampleSqlJob1 ∧
    processOneSql sampleConfig { duration := none, executorsTotalDCU := none }
        [] [] [] sampleSqlJob1 ≠
      processOneSql sampleConfig { duration := none, executorsTotalDCU := none }
        [sampleJob] [] [] sampleSqlJob1 ∧
    processOneSql sampleConfig { duration := none, executorsTotalDCU := none }
        [sampleJob] [] [] sampleSqlJob1 ≠
      processOneSql sampleConfig { duration := none, executorsTotalDCU := none }
        [sampleJob2] [] [] sampleSqlJob1 ∧
    processOneSql sampleConfig { duration := none, executorsTotalDCU := none }
        [sampleJob] [] [] sampleSqlJob1 =
      processOneSql sampleConfig { duration := none, executorsTotalDCU := none }
        [sampleJob] [] [] sampleSqlJob1 :=
  ⟨(reducer_deterministic_change_suppression sampleConfig ⟨[]⟩ ⟨[]⟩
      { duration := none, executorsTotalDCU := none } [] [] [] []
      sampleSqlJob1).2.2.1 (by decide),
   (reducer_deterministic_change_suppression sampleConfig ⟨[]⟩ ⟨[]⟩
      { duration := none, executorsTotalDCU := none } [] [sampleJob] [] []
      sampleSqlJob1).2.2.2.2.2.1 (by decide),
   (reducer_deterministic_change_suppression sampleConfig ⟨[]⟩ ⟨[]⟩
      { duration := none, executorsTotalDCU := none } [sampleJob] [sampleJob2] [] []
      sampleSqlJob1).2.2.2.2.2.2.1 [] [] sampleJob sampleJob2 rfl rfl rfl
      (by decide) (by decide),
   (reducer_deterministic_change_suppression sampleConfig ⟨[]⟩ ⟨[]⟩
      { duration := none, executorsTotalDCU := none } [sampleJob] [sampleJob] [] []
      sampleSqlJob1).2.2.2.2.2.2.2 rfl⟩

/-- C10: the failure-attribution step overwrites the query's
`failureReason` unconditionally with the failure reason of the first
failed stage among the stages of the query's failed jobs: the output
value equals that lookup, the input `failureReason` has no influence on
the output, the output is absent when no failed stage is found, and
nothing else on the query record changes. -/
theorem failureAttribution_unconditional (jobs : List SparkJob)
    (stages : List StageStoreEntry) (sql : EnrichedSparkSQL) (r : Option String) :
    ((attributeFailure jobs stages sql).failureReason =
      ((stages.filter (fun stage =>
          ((jobs.filter (fun job => sql.failedJobIds.contains job.jobId)).flatMap
            (·.stageIds)).contains stage.stageId)).find?
        (fun stage => stage.status = sqlStatusFailed)).bind (·.failureReason)) ∧
    (attributeFailure jobs stages { sql with failureReason := r } =
      attributeFailure jobs stages sql) ∧
    (((stages.filter (fun stage =>
        ((jobs.filter (fun job => sql.failedJobIds.contains job.jobId)).flatMap
          (·.stageIds)).contains stage.stageId)).find?
        (fun stage => stage.status = sqlStatusFailed)) = none →
      (attributeFailure jobs stages sql).failureReason = none) ∧
    (attributeFailure jobs stages sql =
      { sql with failureReason :=
          ((stages.filter (fun stage =>
              ((jobs.filter (fun job => sql.failedJobIds.contains job.jobId)).flatMap
                (·.stageIds)).contains stage.stageId)).find?
            (fun stage => stage.status = sqlStatusFailed)).bind (·.failureReason) }) := by
  refine ⟨rfl, rfl, ?_, rfl⟩
  intro h
  have h1 : (attributeFailure jobs stages sql).failureReason =
      ((stages.filter (fun stage =>
          ((jobs.filter (fun job => sql.failedJobIds.contains job.jobId)).flatMap
            (·.stageIds)).contains stage.stageId)).find?
        (fun stage => stage.status = sqlStatusFailed)).bind (·.failureReason) := rfl
  rw [h1, h]
  rfl

/-- Witness for C10: the no-failed-stage hypothesis discharged at a
concrete input. -/
theorem failureAttribution_unconditional_witness :
    (attributeFailure [] [] sampleSqlJob1).failureReason = none :=
  (failureAttribution_unconditional [] [] sampleSqlJob1 none).2.2.1 rfl

end MetricsReducer
